import Mathlib

/-!
Verification of the RMK keyboard firmware slice: the split driver
(src/rmk/src/split/driver.rs), the VIA/Vial request processor
(src/rmk/src/via/mod.rs) and the BLE connection gate
(src/rmk/src/ble/nrf/mod.rs), shallowly embedded over lists of bytes.
Machine integers are embedded as Nat with explicit reductions modulo
2 ^ 8, 2 ^ 16 or 2 ^ 32 where the source narrows or wraps.
-/

namespace RMK

/-! ## Byte buffer helpers (the byteorder operations used by via/mod.rs) -/

/-- BigEndian::read_u16 over a byte buffer: high byte first. -/
def readU16BE (data : List Nat) (i : Nat) : Nat :=
  256 * data.getD i 0 + data.getD (i + 1) 0

/-- LittleEndian::read_u16 over a byte buffer: low byte first. -/
def readU16LE (data : List Nat) (i : Nat) : Nat :=
  data.getD i 0 + 256 * data.getD (i + 1) 0

/-- BigEndian::read_u32 over a byte buffer. -/
def readU32BE (data : List Nat) (i : Nat) : Nat :=
  16777216 * data.getD i 0 + 65536 * data.getD (i + 1) 0
    + 256 * data.getD (i + 2) 0 + data.getD (i + 3) 0

/-- BigEndian::write_u16: the high byte lands at index i, the low byte at
index i + 1. -/
def writeU16BE (data : List Nat) (i v : Nat) : List Nat :=
  (data.set i (v / 256 % 256)).set (i + 1) (v % 256)

/-- BigEndian::write_u32 at indices i .. i + 4. -/
def writeU32BE (data : List Nat) (i v : Nat) : List Nat :=
  ((((data.set i (v / 16777216 % 256)).set (i + 1) (v / 65536 % 256)).set
    (i + 2) (v / 256 % 256)).set (i + 3) (v % 256))

/-- copy_from_slice: replace data[i .. i + src.length] by src. Matches the
source operation when i + src.length does not exceed the buffer length (the
Rust slice copy panics otherwise; theorems carry that bound as a
hypothesis). -/
def writeBytes (data : List Nat) (i : Nat) (src : List Nat) : List Nat :=
  data.take i ++ src ++ data.drop (i + src.length)

/-! ## Split driver (src/rmk/src/split/driver.rs) -/

/-- Modelled from the spec: the KeyEvent struct of src/rmk/src/keyboard.rs is
not among the provided sources; its fields are the ones constructed by
src/rmk/src/split/driver.rs and listed in the spec data model: a row byte, a
column byte and a pressed flag. -/
structure KeyEvent where
  row : Nat
  col : Nat
  pressed : Bool
deriving DecidableEq

/-- The split message union of src/rmk/src/split/mod.rs; the Key variant
carries the key event that src/rmk/src/split/driver.rs destructures, and
ConnectionState is the variant sent by src/rmk/src/split/nrf/central.rs. -/
inductive SplitMessage where
  | Key (e : KeyEvent)
  | LedState (ledOn : Bool)
  | ConnectionState (connected : Bool)
deriving DecidableEq

/-- One loop iteration of PeripheralMatrixMonitor::run
(src/rmk/src/split/driver.rs, lines 62-85) on a successfully received
message. A Key message is bounds checked with strict greater-than against the
peripheral geometry ROW and COL, then forwarded to key_event_channel with
ROW_OFFSET and COL_OFFSET added; the additions are u8 additions, embedded as
addition modulo 256 after the usize-to-u8 casts of the offsets. A rejected
or non-Key message forwards nothing. -/
def peripheralMonitorForward (ROW COL ROW_OFFSET COL_OFFSET : Nat)
    (msg : SplitMessage) : Option KeyEvent :=
  match msg with
  | SplitMessage.Key e =>
      if e.row > ROW ∨ e.col > COL then none
      else
        some { row := (e.row + ROW_OFFSET % 256) % 256
               col := (e.col + COL_OFFSET % 256) % 256
               pressed := e.pressed }
  | _ => none

/-- Claim C1: every SplitMessage.Key the central monitor forwards to the
KeyEvent channel carries the peripheral-local row plus ROW_OFFSET, the
peripheral-local column plus COL_OFFSET, and the unchanged pressed flag
(stated for coordinates whose offset sums fit in a byte, as the source adds
them as u8 values). -/
theorem C1_forwarded_key_offsets (ROW COL RO CO : Nat) (e ev : KeyEvent)
    (hrow : e.row + RO < 256) (hcol : e.col + CO < 256)
    (hfwd : peripheralMonitorForward ROW COL RO CO (SplitMessage.Key e) = some ev) :
    ev.row = e.row + RO ∧ ev.col = e.col + CO ∧ ev.pressed = e.pressed := by
  unfold peripheralMonitorForward at hfwd
  by_cases hb : e.row > ROW ∨ e.col > COL
  · simp [hb] at hfwd
  · simp only [hb, if_false] at hfwd
    have hro : RO < 256 := lt_of_le_of_lt (Nat.le_add_left RO e.row) hrow
    have hco : CO < 256 := lt_of_le_of_lt (Nat.le_add_left CO e.col) hcol
    have h1 : (e.row + RO % 256) % 256 = e.row + RO := by
      rw [Nat.mod_eq_of_lt hro, Nat.mod_eq_of_lt hrow]
    have h2 : (e.col + CO % 256) % 256 = e.col + CO := by
      rw [Nat.mod_eq_of_lt hco, Nat.mod_eq_of_lt hcol]
    cases hfwd
    simp [h1, h2]

/-- Witness for C1 at the concrete instance of spec scenario S5: a peripheral
with offsets (2, 0) forwarding Key(0, 3, pressed). -/
theorem C1_forwarded_key_offsets_witness :
    (KeyEvent.mk 2 3 true).row = 0 + 2 ∧ (KeyEvent.mk 2 3 true).col = 3 + 0 ∧
      (KeyEvent.mk 2 3 true).pressed = true :=
  C1_forwarded_key_offsets 4 4 2 0 (KeyEvent.mk 0 3 true) (KeyEvent.mk 2 3 true)
    (by decide) (by decide) (by decide)

/-- Claim C2 (evidence of the code bug): on a peripheral declared with
ROW = COL = 4 the valid local rows are 0 .. 3, yet the monitor forwards the
out-of-geometry coordinate row = 4 unchanged, because the bounds check in
src/rmk/src/split/driver.rs line 69 uses strict greater-than; only row = 5
and beyond are rejected. -/
theorem C2_out_of_geometry_forwarded :
    peripheralMonitorForward 4 4 0 0 (SplitMessage.Key (KeyEvent.mk 4 0 true))
        = some (KeyEvent.mk 4 0 true) ∧
      peripheralMonitorForward 4 4 0 0 (SplitMessage.Key (KeyEvent.mk 5 0 true)) = none := by
  constructor
  · decide
  · decide

/-! ## VIA data model

The VIA processor (src/rmk/src/via/mod.rs) works over the keymap, the macro
cache and the flash channel. The KeyAction type, the keycode conversions, the
KeyMap accessors, the ViaCommand discriminants and the flash message type live
in repository files that are not among the provided sources and are modelled
from the spec, each marked as such below. -/

/-- Modelled from the spec: the KeyAction type of src/rmk/src/action.rs and
the conversions from_via_keycode and to_via_keycode of
src/rmk/src/via/keycode_convert.rs are not among the provided sources. Per
the spec data model a key action is the effect bound to one keymap cell,
identified over the VIA protocol by a tagged 16-bit keycode, and setting then
getting a cell round-trips the keycode (spec section 8, invariant 4); the
embedding therefore records the 16-bit tag of the action. -/
inductive KeyAction where
  | encoded (keycode : Nat)
deriving DecidableEq

instance : Inhabited KeyAction := ⟨KeyAction.encoded 0⟩

/-- Modelled from the spec: conversion from a VIA 16-bit keycode to the bound
key action (src/rmk/src/via/keycode_convert.rs is not among the provided
sources); the keycode argument is a u16 read from the packet. -/
def from_via_keycode (keycode : Nat) : KeyAction :=
  KeyAction.encoded (keycode % 65536)

/-- Modelled from the spec: conversion from a key action back to its VIA
16-bit keycode (src/rmk/src/via/keycode_convert.rs is not among the provided
sources), inverse to from_via_keycode per spec section 8 invariant 4. -/
def to_via_keycode : KeyAction → Nat
  | KeyAction.encoded keycode => keycode

/-- Modelled from the spec: the KeyMap of src/rmk/src/keymap.rs is not among
the provided sources. Per the spec data model it is a fixed 3-D array
layers[NUM_LAYER][ROW][COL] of KeyAction plus a macro_cache byte buffer of
MACRO_SPACE_SIZE bytes. The 3-D array is embedded as its flattening in
layer-major then row-major order, so that the flat iterator
layers.iter().flatten().flatten() used by src/rmk/src/via/mod.rs is the list
itself and cell (layer, row, col) sits at flat index
layer * ROW * COL + row * COL + col. -/
structure KeyMap where
  layers : List KeyAction
  macro_cache : List Nat
deriving DecidableEq

/-- Modelled from the spec: KeyMap::get_action_at(row, col, layer)
(src/rmk/src/keymap.rs is not among the provided sources) reads the cell
layers[layer][row][col], here at its flat index. -/
def get_action_at (rowNum colNum : Nat) (km : KeyMap) (row col layer : Nat) : KeyAction :=
  km.layers.getD (layer * (rowNum * colNum) + row * colNum + col) default

/-- Modelled from the spec: KeyMap::set_action_at(row, col, layer, action)
(src/rmk/src/keymap.rs is not among the provided sources) writes the cell
layers[layer][row][col], here at its flat index. -/
def set_action_at (rowNum colNum : Nat) (km : KeyMap) (row col layer : Nat)
    (action : KeyAction) : KeyMap :=
  { km with layers := km.layers.set (layer * (rowNum * colNum) + row * colNum + col) action }

/-- Modelled from the spec: the storage operation messages sent over
FLASH_CHANNEL (src/rmk/src/storage.rs is not among the provided sources); the
variants are exactly the ones src/rmk/src/via/mod.rs sends, and they carry
the data the spec lists for StorageData. -/
inductive FlashOperationMessage where
  | LayoutOptions (layoutOption : Nat)
  | Reset
  | KeymapKey (layer col row : Nat) (action : KeyAction)
  | WriteMacro (buf : List Nat)
deriving DecidableEq

/-- Modelled from the spec: the bounded FLASH_CHANNEL declared in
src/rmk/src/storage.rs (not among the provided sources; the spec gives it
capacity 8). The embedding keeps the queued messages together with the
messages that a failed try_send dropped, so that delivery and loss are both
observable. -/
structure FlashChannelState where
  queue : List FlashOperationMessage
  dropped : List FlashOperationMessage
deriving DecidableEq

/-- Blocking channel send: awaits capacity, hence always delivers; the
embedding appends the message to the queue unconditionally. -/
def flashSend (st : FlashChannelState) (m : FlashOperationMessage) : FlashChannelState :=
  { st with queue := st.queue ++ [m] }

/-- Non-blocking try_send of the bounded channel: delivers only when the
queue holds fewer than cap messages, otherwise the message is dropped (the
source merely logs the error). -/
def flashTrySend (cap : Nat) (st : FlashChannelState) (m : FlashOperationMessage) :
    FlashChannelState :=
  if st.queue.length < cap then { st with queue := st.queue ++ [m] }
  else { st with dropped := st.dropped ++ [m] }

/-- Modelled from the spec: the ViaReport of src/rmk/src/usb/descriptor.rs is
not among the provided sources; per the spec it is a pair of 32-byte buffers,
output_data holding the request read from the host and input_data the
response written back. -/
structure ViaReport where
  input_data : List Nat
  output_data : List Nat
deriving DecidableEq

/-- Modelled from the spec: the ViaCommand enum of src/rmk/src/via/protocol.rs
is not among the provided sources; the constructors are the ones matched by
src/rmk/src/via/mod.rs, the discriminant bytes are the VIA protocol command
bytes the spec refers to in sections 4.4 and 6, and Unhandled is the
num_enum catch-all default. -/
inductive ViaCommand where
  | GetProtocolVersion
  | GetKeyboardValue
  | SetKeyboardValue
  | DynamicKeymapGetKeyCode
  | DynamicKeymapSetKeyCode
  | DynamicKeymapReset
  | CustomSetValue
  | CustomGetValue
  | CustomSave
  | EepromReset
  | BootloaderJump
  | DynamicKeymapMacroGetCount
  | DynamicKeymapMacroGetBufferSize
  | DynamicKeymapMacroGetBuffer
  | DynamicKeymapMacroSetBuffer
  | DynamicKeymapMacroReset
  | DynamicKeymapGetLayerCount
  | DynamicKeymapGetBuffer
  | DynamicKeymapSetBuffer
  | DynamicKeymapGetEncoder
  | DynamicKeymapSetEncoder
  | Vial
  | Unhandled
deriving DecidableEq

/-- Modelled from the spec: the discriminant byte of each ViaCommand
(src/rmk/src/via/protocol.rs is not among the provided sources). -/
def ViaCommand.toPrimitive : ViaCommand → Nat
  | ViaCommand.GetProtocolVersion => 0x01
  | ViaCommand.GetKeyboardValue => 0x02
  | ViaCommand.SetKeyboardValue => 0x03
  | ViaCommand.DynamicKeymapGetKeyCode => 0x04
  | ViaCommand.DynamicKeymapSetKeyCode => 0x05
  | ViaCommand.DynamicKeymapReset => 0x06
  | ViaCommand.CustomSetValue => 0x07
  | ViaCommand.CustomGetValue => 0x08
  | ViaCommand.CustomSave => 0x09
  | ViaCommand.EepromReset => 0x0A
  | ViaCommand.BootloaderJump => 0x0B
  | ViaCommand.DynamicKeymapMacroGetCount => 0x0C
  | ViaCommand.DynamicKeymapMacroGetBufferSize => 0x0D
  | ViaCommand.DynamicKeymapMacroGetBuffer => 0x0E
  | ViaCommand.DynamicKeymapMacroSetBuffer => 0x0F
  | ViaCommand.DynamicKeymapMacroReset => 0x10
  | ViaCommand.DynamicKeymapGetLayerCount => 0x11
  | ViaCommand.DynamicKeymapGetBuffer => 0x12
  | ViaCommand.DynamicKeymapSetBuffer => 0x13
  | ViaCommand.DynamicKeymapGetEncoder => 0x14
  | ViaCommand.DynamicKeymapSetEncoder => 0x15
  | ViaCommand.Vial => 0xFE
  | ViaCommand.Unhandled => 0xFF

/-- Modelled from the spec: ViaCommand::from_primitive of the num_enum derive
(src/rmk/src/via/protocol.rs is not among the provided sources): every listed
discriminant maps to its command and every other byte to the Unhandled
default. -/
def ViaCommand.fromPrimitive (b : Nat) : ViaCommand :=
  if b = 0x01 then ViaCommand.GetProtocolVersion
  else if b = 0x02 then ViaCommand.GetKeyboardValue
  else if b = 0x03 then ViaCommand.SetKeyboardValue
  else if b = 0x04 then ViaCommand.DynamicKeymapGetKeyCode
  else if b = 0x05 then ViaCommand.DynamicKeymapSetKeyCode
  else if b = 0x06 then ViaCommand.DynamicKeymapReset
  else if b = 0x07 then ViaCommand.CustomSetValue
  else if b = 0x08 then ViaCommand.CustomGetValue
  else if b = 0x09 then ViaCommand.CustomSave
  else if b = 0x0A then ViaCommand.EepromReset
  else if b = 0x0B then ViaCommand.BootloaderJump
  else if b = 0x0C then ViaCommand.DynamicKeymapMacroGetCount
  else if b = 0x0D then ViaCommand.DynamicKeymapMacroGetBufferSize
  else if b = 0x0E then ViaCommand.DynamicKeymapMacroGetBuffer
  else if b = 0x0F then ViaCommand.DynamicKeymapMacroSetBuffer
  else if b = 0x10 then ViaCommand.DynamicKeymapMacroReset
  else if b = 0x11 then ViaCommand.DynamicKeymapGetLayerCount
  else if b = 0x12 then ViaCommand.DynamicKeymapGetBuffer
  else if b = 0x13 then ViaCommand.DynamicKeymapSetBuffer
  else if b = 0x14 then ViaCommand.DynamicKeymapGetEncoder
  else if b = 0x15 then ViaCommand.DynamicKeymapSetEncoder
  else if b = 0xFE then ViaCommand.Vial
  else ViaCommand.Unhandled

/-- Modelled from the spec: the ViaKeyboardInfo sub-discriminants of
src/rmk/src/via/protocol.rs (not among the provided sources), matched by the
GetKeyboardValue and SetKeyboardValue arms. -/
inductive ViaKeyboardInfo where
  | Uptime
  | LayoutOptions
  | SwitchMatrixState
  | FirmwareVersion
  | DeviceIndication
deriving DecidableEq

/-- Modelled from the spec: ViaKeyboardInfo::try_from_primitive
(src/rmk/src/via/protocol.rs is not among the provided sources). -/
def ViaKeyboardInfo.tryFromPrimitive (b : Nat) : Option ViaKeyboardInfo :=
  if b = 0x01 then some ViaKeyboardInfo.Uptime
  else if b = 0x02 then some ViaKeyboardInfo.LayoutOptions
  else if b = 0x03 then some ViaKeyboardInfo.SwitchMatrixState
  else if b = 0x04 then some ViaKeyboardInfo.FirmwareVersion
  else if b = 0x05 then some ViaKeyboardInfo.DeviceIndication
  else none

/-- The compile-time constants and environment values the VIA processor
reads: the keymap geometry (ROW, COL, NUM_LAYER), the macro constants
NUM_MACRO and MACRO_SPACE_SIZE of src/rmk/src/keyboard_macro.rs, the flash
channel capacity, the uptime sampled for GetKeyboardValue, and the protocol
and firmware version constants. All are parameters of the embedding so that
the theorems quantify over them. -/
structure ViaContext where
  rowNum : Nat
  colNum : Nat
  layerNum : Nat
  numMacro : Nat
  macroSpaceSize : Nat
  flashCap : Nat
  uptimeMillis : Nat
  protocolVersion : Nat
  firmwareVersion : Nat
deriving DecidableEq

/-- count_zeros from src/rmk/src/via/mod.rs lines 356-358: the number of zero
bytes in the slice. -/
def count_zeros (data : List Nat) : Nat :=
  (data.filter fun x => x == 0).length

/-- get_position_from_offset from src/rmk/src/via/mod.rs lines 344-354:
translates a flat keycode offset into (row, col, layer) for a matrix with
max_row rows and max_col columns. -/
def get_position_from_offset (offset max_row max_col : Nat) : Nat × Nat × Nat :=
  (offset % (max_col * max_row) / max_col, offset % (max_col * max_row) % max_col,
    offset / (max_col * max_row))

/-! ## VIA request processing (src/rmk/src/via/mod.rs, process_via_packet) -/

/-- The DynamicKeymapGetKeyCode arm (src/rmk/src/via/mod.rs lines 146-157):
reads the cell named by the layer, row and column bytes and writes its VIA
keycode big-endian into response bytes 4..6. -/
def dynamicKeymapGetKeyCode (ctx : ViaContext) (km : KeyMap)
    (out input : List Nat) : List Nat :=
  let layer := out.getD 1 0
  let row := out.getD 2 0
  let col := out.getD 3 0
  writeU16BE input 4 (to_via_keycode (get_action_at ctx.rowNum ctx.colNum km row col layer))

/-- The DynamicKeymapSetKeyCode arm (src/rmk/src/via/mod.rs lines 158-182):
decodes the keycode big-endian from request bytes 4..6, stores the converted
action in the named cell and sends a KeymapKey message with the blocking
channel send, which awaits capacity. -/
def dynamicKeymapSetKeyCode (ctx : ViaContext) (km : KeyMap) (out : List Nat)
    (st : FlashChannelState) : KeyMap × FlashChannelState :=
  let layer := out.getD 1 0
  let row := out.getD 2 0
  let col := out.getD 3 0
  let action := from_via_keycode (readU16BE out 4)
  (set_action_at ctx.rowNum ctx.colNum km row col layer action,
    flashSend st (FlashOperationMessage.KeymapKey layer col row action))

/-- The DynamicKeymapMacroGetBuffer arm (src/rmk/src/via/mod.rs lines
215-228): for size at most 28 copies macro_cache[offset .. offset + size]
into response bytes 4 .. 4 + size, otherwise flags the response with 0xFF.
The source slice macro_cache[offset .. offset + size] panics when
offset + size exceeds the cache length; the drop/take embedding matches it
only for in-bounds requests (offset + size at most MACRO_SPACE_SIZE), the
same bound the macro theorems carry as a hypothesis. -/
def dynamicKeymapMacroGetBuffer (cache out input : List Nat) : List Nat :=
  let offset := readU16BE out 1
  let size := out.getD 3 0
  if size ≤ 28 then writeBytes input 4 ((cache.drop offset).take size)
  else input.set 0 0xFF

/-- The macro cache after the DynamicKeymapMacroSetBuffer arm
(src/rmk/src/via/mod.rs lines 229-247): a request at offset 0 first resets
the cache to all zeros, then request bytes 4 .. 4 + size are copied to
cache[offset .. offset + size]. -/
def macroSetBufferCache (macroSpaceSize : Nat) (cache out : List Nat) : List Nat :=
  let offset := readU16BE out 1
  let size := out.getD 3 0
  writeBytes (if offset = 0 then List.replicate macroSpaceSize 0 else cache)
    offset ((out.drop 4).take size)

/-- The DynamicKeymapMacroSetBuffer arm (src/rmk/src/via/mod.rs lines
229-259): updates the macro cache, then counts the zero bytes of
cache[0 .. offset + size]; when size < 28 or at least NUM_MACRO zeros are
present, the whole cache is flushed to storage with a blocking WriteMacro
send. -/
def dynamicKeymapMacroSetBuffer (ctx : ViaContext) (cache out : List Nat)
    (st : FlashChannelState) : List Nat × FlashChannelState :=
  let offset := readU16BE out 1
  let size := out.getD 3 0
  let newCache := macroSetBufferCache ctx.macroSpaceSize cache out
  if size < 28 ∨ ctx.numMacro ≤ count_zeros (newCache.take (offset + size)) then
    (newCache, flashSend st (FlashOperationMessage.WriteMacro newCache))
  else (newCache, st)

/-- The DynamicKeymapGetBuffer arm (src/rmk/src/via/mod.rs lines 266-285):
walks the flat layers iterator skipping offset / 2 keycodes and taking
size / 2 of them, writing each keycode big-endian at response index
4 + 2 * j. The source write into input_data[idx .. idx + 2] panics past the
32-byte response (size / 2 above 14, excluded by the size at most 28 rule);
within that bound the embedding matches the source, and the judged theorems
evaluate this arm only at such requests. -/
def dynamicKeymapGetBuffer (km : KeyMap) (out input : List Nat) : List Nat :=
  let offset := readU16BE out 1
  let size := out.getD 3 0
  (List.range (min (size / 2) (km.layers.length - offset / 2))).foldl
    (fun inp j =>
      writeU16BE inp (4 + 2 * j) (to_via_keycode (km.layers.getD (offset / 2 + j) default)))
    input

/-- One iteration of the DynamicKeymapSetBuffer for_each closure
(src/rmk/src/via/mod.rs lines 302-322) on the i-th visited cell: the cell at
flat index offset + i is overwritten with the action decoded from the
little-endian keycode at request index 4 + 2 * i, and a KeymapKey message for
the coordinates recovered by get_position_from_offset (cast to u8) is offered
to the flash channel with try_send. The source reads the slice
output_data[4 + 2 * i .. 6 + 2 * i] and panics past the 32-byte packet
(i at least 14); the embedding is faithful only below that bound, and the
theorems quantifying over requests carry 4 + 2 * size at most 32 as a
hypothesis. -/
def setBufferStep (ctx : ViaContext) (out : List Nat) (offset : Nat)
    (acc : List KeyAction × FlashChannelState) (i : Nat) :
    List KeyAction × FlashChannelState :=
  let action := from_via_keycode (readU16LE out (4 + 2 * i))
  let pos := get_position_from_offset (offset + i) ctx.rowNum ctx.colNum
  (acc.1.set (offset + i) action,
    flashTrySend ctx.flashCap acc.2
      (FlashOperationMessage.KeymapKey (pos.2.2 % 256) (pos.2.1 % 256) (pos.1 % 256) action))

/-- The DynamicKeymapSetBuffer arm (src/rmk/src/via/mod.rs lines 286-323):
walks the flat layers iterator skipping offset keycodes and taking size of
them, running setBufferStep on each visited cell in order. -/
def dynamicKeymapSetBuffer (ctx : ViaContext) (km : KeyMap) (out : List Nat)
    (st : FlashChannelState) : KeyMap × FlashChannelState :=
  let offset := readU16BE out 1
  let size := out.getD 3 0
  let res := (List.range (min size (km.layers.length - offset))).foldl
    (setBufferStep ctx out offset) (km.layers, st)
  ({ km with layers := res.1 }, res.2)

/-- The state after processing one VIA packet: the keymap, the report pair
and the flash channel. -/
structure ViaResult where
  keymap : KeyMap
  report : ViaReport
  flash : FlashChannelState
deriving DecidableEq

/-- VialService::process_via_packet (src/rmk/src/via/mod.rs lines 85-341),
embedded one request at a time. The response buffer input_data is first
initialized from the request buffer output_data, then the arm selected by
decoding the command byte updates the keymap, the response bytes and the
flash channel. Arms that only log (reset, custom values, bootloader jump,
encoders, unknown subcommands) leave the state unchanged; the Vial arm
defers to process_vial of src/rmk/src/via/vial.rs, which is not among the
provided sources and whose effect no claim depends on, so it is embedded as
leaving the state unchanged. -/
def process_via_packet (ctx : ViaContext) (km : KeyMap) (report : ViaReport)
    (st : FlashChannelState) : ViaResult :=
  let out := report.output_data
  let input0 := out
  match ViaCommand.fromPrimitive (out.getD 0 0) with
  | ViaCommand.GetProtocolVersion =>
      ⟨km, ⟨writeU16BE input0 1 ctx.protocolVersion, out⟩, st⟩
  | ViaCommand.GetKeyboardValue =>
      match ViaKeyboardInfo.tryFromPrimitive (out.getD 1 0) with
      | some ViaKeyboardInfo.Uptime =>
          ⟨km, ⟨writeU32BE input0 2 (ctx.uptimeMillis % 4294967296), out⟩, st⟩
      | some ViaKeyboardInfo.LayoutOptions =>
          ⟨km, ⟨writeU32BE input0 2 0, out⟩, st⟩
      | some ViaKeyboardInfo.FirmwareVersion =>
          ⟨km, ⟨writeU32BE input0 2 ctx.firmwareVersion, out⟩, st⟩
      | _ => ⟨km, ⟨input0, out⟩, st⟩
  | ViaCommand.SetKeyboardValue =>
      match ViaKeyboardInfo.tryFromPrimitive (out.getD 1 0) with
      | some ViaKeyboardInfo.LayoutOptions =>
          ⟨km, ⟨input0, out⟩,
            flashSend st (FlashOperationMessage.LayoutOptions (readU32BE out 2))⟩
      | _ => ⟨km, ⟨input0, out⟩, st⟩
  | ViaCommand.DynamicKeymapGetKeyCode =>
      ⟨km, ⟨dynamicKeymapGetKeyCode ctx km out input0, out⟩, st⟩
  | ViaCommand.DynamicKeymapSetKeyCode =>
      let r := dynamicKeymapSetKeyCode ctx km out st
      ⟨r.1, ⟨input0, out⟩, r.2⟩
  | ViaCommand.DynamicKeymapReset => ⟨km, ⟨input0, out⟩, st⟩
  | ViaCommand.CustomSetValue => ⟨km, ⟨input0, out⟩, st⟩
  | ViaCommand.CustomGetValue => ⟨km, ⟨input0, out⟩, st⟩
  | ViaCommand.CustomSave => ⟨km, ⟨input0, out⟩, st⟩
  | ViaCommand.EepromReset =>
      ⟨km, ⟨input0, out⟩, flashSend st FlashOperationMessage.Reset⟩
  | ViaCommand.BootloaderJump => ⟨km, ⟨input0, out⟩, st⟩
  | ViaCommand.DynamicKeymapMacroGetCount =>
      ⟨km, ⟨input0.set 1 8, out⟩, st⟩
  | ViaCommand.DynamicKeymapMacroGetBufferSize =>
      ⟨km, ⟨(input0.set 1 (ctx.macroSpaceSize % 65536 / 256)).set 2 (ctx.macroSpaceSize % 256),
        out⟩, st⟩
  | ViaCommand.DynamicKeymapMacroGetBuffer =>
      ⟨km, ⟨dynamicKeymapMacroGetBuffer km.macro_cache out input0, out⟩, st⟩
  | ViaCommand.DynamicKeymapMacroSetBuffer =>
      let r := dynamicKeymapMacroSetBuffer ctx km.macro_cache out st
      ⟨{ km with macro_cache := r.1 }, ⟨input0, out⟩, r.2⟩
  | ViaCommand.DynamicKeymapMacroReset => ⟨km, ⟨input0, out⟩, st⟩
  | ViaCommand.DynamicKeymapGetLayerCount =>
      ⟨km, ⟨input0.set 1 (ctx.layerNum % 256), out⟩, st⟩
  | ViaCommand.DynamicKeymapGetBuffer =>
      ⟨km, ⟨dynamicKeymapGetBuffer km out input0, out⟩, st⟩
  | ViaCommand.DynamicKeymapSetBuffer =>
      let r := dynamicKeymapSetBuffer ctx km out st
      ⟨r.1, ⟨input0, out⟩, r.2⟩
  | ViaCommand.DynamicKeymapGetEncoder => ⟨km, ⟨input0, out⟩, st⟩
  | ViaCommand.DynamicKeymapSetEncoder => ⟨km, ⟨input0, out⟩, st⟩
  | ViaCommand.Vial => ⟨km, ⟨input0, out⟩, st⟩
  | ViaCommand.Unhandled =>
      ⟨km, ⟨input0.set 0 (ViaCommand.toPrimitive ViaCommand.Unhandled), out⟩, st⟩

/-! ## Helper lemmas -/

theorem getD_set_self {α : Type} (l : List α) (i : Nat) (a d : α) (h : i < l.length) :
    (l.set i a).getD i d = a := by
  rw [List.getD_eq_getElem (l.set i a) d (by simpa using h)]
  exact List.getElem_set_self (by simpa using h)

theorem getD_set_ne {α : Type} (l : List α) {i j : Nat} (a d : α) (h : i ≠ j) :
    (l.set i a).getD j d = l.getD j d := by
  by_cases hj : j < l.length
  · rw [List.getD_eq_getElem (l.set i a) d (by simpa using hj),
      List.getD_eq_getElem l d hj]
    exact List.getElem_set_ne h (by simpa using hj)
  · rw [List.getD_eq_default (l.set i a) d (by simpa using Nat.le_of_not_lt hj),
      List.getD_eq_default l d (Nat.le_of_not_lt hj)]

/-- The flat index of cell (layer, row, col) is inside the flat keymap. -/
theorem flat_index_lt (L R C l r c : Nat) (hl : l < L) (hr : r < R) (hc : c < C) :
    l * (R * C) + r * C + c < L * (R * C) := by
  have h1 : r * C + c < R * C := by
    calc r * C + c < r * C + C := by omega
    _ = (r + 1) * C := by ring
    _ ≤ R * C := Nat.mul_le_mul_right C hr
  calc l * (R * C) + r * C + c < l * (R * C) + R * C := by omega
  _ = (l + 1) * (R * C) := by ring
  _ ≤ L * (R * C) := Nat.mul_le_mul_right (R * C) hl

/-- Dispatch of process_via_packet to the DynamicKeymapGetKeyCode arm. -/
theorem process_getKeyCode (ctx : ViaContext) (km : KeyMap) (i0 out : List Nat)
    (st : FlashChannelState)
    (h : ViaCommand.fromPrimitive (out.getD 0 0) = ViaCommand.DynamicKeymapGetKeyCode) :
    process_via_packet ctx km ⟨i0, out⟩ st =
      ⟨km, ⟨dynamicKeymapGetKeyCode ctx km out out, out⟩, st⟩ := by
  simp only [process_via_packet]
  rw [h]

/-- Dispatch of process_via_packet to the DynamicKeymapSetKeyCode arm. -/
theorem process_setKeyCode (ctx : ViaContext) (km : KeyMap) (i0 out : List Nat)
    (st : FlashChannelState)
    (h : ViaCommand.fromPrimitive (out.getD 0 0) = ViaCommand.DynamicKeymapSetKeyCode) :
    process_via_packet ctx km ⟨i0, out⟩ st =
      ⟨(dynamicKeymapSetKeyCode ctx km out st).1, ⟨out, out⟩,
        (dynamicKeymapSetKeyCode ctx km out st).2⟩ := by
  simp only [process_via_packet]
  rw [h]

/-- Dispatch of process_via_packet to the DynamicKeymapSetBuffer arm. -/
theorem process_setBuffer (ctx : ViaContext) (km : KeyMap) (i0 out : List Nat)
    (st : FlashChannelState)
    (h : ViaCommand.fromPrimitive (out.getD 0 0) = ViaCommand.DynamicKeymapSetBuffer) :
    process_via_packet ctx km ⟨i0, out⟩ st =
      ⟨(dynamicKeymapSetBuffer ctx km out st).1, ⟨out, out⟩,
        (dynamicKeymapSetBuffer ctx km out st).2⟩ := by
  simp only [process_via_packet]
  rw [h]

/-- Dispatch of process_via_packet to the DynamicKeymapMacroSetBuffer arm. -/
theorem process_macroSetBuffer (ctx : ViaContext) (km : KeyMap) (i0 out : List Nat)
    (st : FlashChannelState)
    (h : ViaCommand.fromPrimitive (out.getD 0 0) = ViaCommand.DynamicKeymapMacroSetBuffer) :
    process_via_packet ctx km ⟨i0, out⟩ st =
      ⟨{ km with macro_cache := (dynamicKeymapMacroSetBuffer ctx km.macro_cache out st).1 },
        ⟨out, out⟩, (dynamicKeymapMacroSetBuffer ctx km.macro_cache out st).2⟩ := by
  simp only [process_via_packet]
  rw [h]

/-- Dispatch of process_via_packet to the DynamicKeymapMacroGetCount arm. -/
theorem process_macroGetCount (ctx : ViaContext) (km : KeyMap) (i0 out : List Nat)
    (st : FlashChannelState)
    (h : ViaCommand.fromPrimitive (out.getD 0 0) = ViaCommand.DynamicKeymapMacroGetCount) :
    process_via_packet ctx km ⟨i0, out⟩ st = ⟨km, ⟨out.set 1 8, out⟩, st⟩ := by
  simp only [process_via_packet]
  rw [h]

/-! ## Claims C9, C7 and C4 -/

/-- Claim C9: for every DynamicKeymapMacroGetCount request (command byte
0x0C), byte 1 of the response is the constant 8, whatever the value of
NUM_MACRO in the context (src/rmk/src/via/mod.rs lines 206-209). -/
theorem C9_macro_get_count_constant (ctx : ViaContext) (km : KeyMap)
    (i0 : List Nat) (st : FlashChannelState) (b1 : Nat) (rest : List Nat) :
    ((process_via_packet ctx km ⟨i0, 0x0C :: b1 :: rest⟩ st).report.input_data).getD 1 0
      = 8 := by
  rw [process_macroGetCount ctx km i0 (0x0C :: b1 :: rest) st rfl]
  rfl

/-- Claim C7, amended: for every request whose command byte decodes to the
Unhandled catch-all, the response is the request buffer with byte 0
overwritten by the Unhandled discriminant 0xFF (so bytes 1..32 echo the
request, but byte 0 does not echo an unknown command byte), and keymap and
flash state are untouched. -/
theorem C7_unknown_command_marks_unhandled (ctx : ViaContext) (km : KeyMap)
    (i0 out : List Nat) (st : FlashChannelState)
    (h : ViaCommand.fromPrimitive (out.getD 0 0) = ViaCommand.Unhandled) :
    process_via_packet ctx km ⟨i0, out⟩ st = ⟨km, ⟨out.set 0 0xFF, out⟩, st⟩ := by
  simp only [process_via_packet]
  rw [h]
  rfl

/-- Witness for the amended C7 at the concrete unknown command byte 0x42. -/
theorem C7_unknown_command_marks_unhandled_witness :
    ViaCommand.fromPrimitive ((0x42 :: List.replicate 31 7).getD 0 0) = ViaCommand.Unhandled ∧
      process_via_packet ⟨2, 2, 1, 8, 16, 8, 0, 9, 1⟩
          ⟨List.replicate 4 (KeyAction.encoded 0), List.replicate 16 0⟩
          ⟨List.replicate 32 0, 0x42 :: List.replicate 31 7⟩ ⟨[], []⟩ =
        ⟨⟨List.replicate 4 (KeyAction.encoded 0), List.replicate 16 0⟩,
          ⟨(0x42 :: List.replicate 31 7).set 0 0xFF, 0x42 :: List.replicate 31 7⟩, ⟨[], []⟩⟩ :=
  ⟨by decide,
    C7_unknown_command_marks_unhandled ⟨2, 2, 1, 8, 16, 8, 0, 9, 1⟩
      ⟨List.replicate 4 (KeyAction.encoded 0), List.replicate 16 0⟩
      (List.replicate 32 0) (0x42 :: List.replicate 31 7) ⟨[], []⟩ (by decide)⟩

/-- Claim C7, counterexample: the request with unknown command byte 0x42 gets
a response whose byte 0 is 0xFF, not an echo of 0x42 as the claim states. -/
theorem C7_counterexample :
    ((process_via_packet ⟨2, 2, 1, 8, 16, 8, 0, 9, 1⟩
        ⟨List.replicate 4 (KeyAction.encoded 0), List.replicate 16 0⟩
        ⟨List.replicate 32 0, 0x42 :: List.replicate 31 7⟩
        ⟨[], []⟩).report.input_data).getD 0 0 = 0xFF ∧
      ¬ ((process_via_packet ⟨2, 2, 1, 8, 16, 8, 0, 9, 1⟩
          ⟨List.replicate 4 (KeyAction.encoded 0), List.replicate 16 0⟩
          ⟨List.replicate 32 0, 0x42 :: List.replicate 31 7⟩
          ⟨[], []⟩).report.input_data).getD 0 0 = 0x42 := by
  constructor
  · decide
  · decide

/-- Claim C4 (evidence of the code bug): on a one-layer 2 x 2 keymap,
DynamicKeymapSetBuffer with offset 2 and size 2 writes keycodes 5 and 7 into
flat cells 2 and 3 (it skips offset cells), but DynamicKeymapGetBuffer with
the same offset 2 and size 2 reads back flat cell 1 only (it skips offset / 2
cells and takes size / 2), so the response carries keycode 0 where the claim
expects the written keycode 5: the two arms do not interpret the offset field
identically and the round trip fails. -/
theorem C4_buffer_offset_mismatch :
    (process_via_packet ⟨2, 2, 1, 8, 16, 8, 0, 9, 1⟩
        ⟨List.replicate 4 (KeyAction.encoded 0), List.replicate 16 0⟩
        ⟨List.replicate 32 0, [0x13, 0, 2, 2, 5, 0, 7, 0] ++ List.replicate 24 0⟩
        ⟨[], []⟩).keymap.layers =
      [KeyAction.encoded 0, KeyAction.encoded 0, KeyAction.encoded 5, KeyAction.encoded 7] ∧
    ((process_via_packet ⟨2, 2, 1, 8, 16, 8, 0, 9, 1⟩
        (process_via_packet ⟨2, 2, 1, 8, 16, 8, 0, 9, 1⟩
          ⟨List.replicate 4 (KeyAction.encoded 0), List.replicate 16 0⟩
          ⟨List.replicate 32 0, [0x13, 0, 2, 2, 5, 0, 7, 0] ++ List.replicate 24 0⟩
          ⟨[], []⟩).keymap
        ⟨List.replicate 32 0, [0x12, 0, 2, 2] ++ List.replicate 28 0⟩
        ⟨[], []⟩).report.input_data).getD 4 0 = 0 ∧
    ((process_via_packet ⟨2, 2, 1, 8, 16, 8, 0, 9, 1⟩
        (process_via_packet ⟨2, 2, 1, 8, 16, 8, 0, 9, 1⟩
          ⟨List.replicate 4 (KeyAction.encoded 0), List.replicate 16 0⟩
          ⟨List.replicate 32 0, [0x13, 0, 2, 2, 5, 0, 7, 0] ++ List.replicate 24 0⟩
          ⟨[], []⟩).keymap
        ⟨List.replicate 32 0, [0x12, 0, 2, 2] ++ List.replicate 28 0⟩
        ⟨[], []⟩).report.input_data).getD 5 0 ≠ 5 := by
  refine ⟨by decide, by decide, by decide⟩

theorem getD_writeU16BE_hi (data : List Nat) (i v : Nat) (h : i + 1 < data.length) :
    (writeU16BE data i v).getD i 0 = v / 256 % 256 := by
  unfold writeU16BE
  rw [getD_set_ne _ _ _ (by omega), getD_set_self _ _ _ _ (by omega)]

theorem getD_writeU16BE_lo (data : List Nat) (i j v : Nat) (hj : j = i + 1)
    (h : j < data.length) :
    (writeU16BE data i v).getD j 0 = v % 256 := by
  subst hj
  unfold writeU16BE
  rw [getD_set_self _ _ _ _ (by simpa using h)]

/-- Computation rule: the keymap produced by the DynamicKeymapSetKeyCode arm
on a packet 0x05, layer, row, col, high byte, low byte. -/
theorem setKeyCode_keymap (ctx : ViaContext) (km : KeyMap) (st : FlashChannelState)
    (l r c b4 b5 : Nat) (rest : List Nat) :
    (dynamicKeymapSetKeyCode ctx km (0x05 :: l :: r :: c :: b4 :: b5 :: rest) st).1 =
      ⟨km.layers.set (l * (ctx.rowNum * ctx.colNum) + r * ctx.colNum + c)
        (KeyAction.encoded ((256 * b4 + b5) % 65536)), km.macro_cache⟩ := rfl

/-- Computation rule: the response of the DynamicKeymapGetKeyCode arm on a
packet 0x04, layer, row, col. -/
theorem getKeyCode_response (ctx : ViaContext) (layers : List KeyAction) (mc : List Nat)
    (inp : List Nat) (l r c : Nat) (rest : List Nat) :
    dynamicKeymapGetKeyCode ctx ⟨layers, mc⟩ (0x04 :: l :: r :: c :: rest) inp =
      writeU16BE inp 4 (to_via_keycode (layers.getD
        (l * (ctx.rowNum * ctx.colNum) + r * ctx.colNum + c) default)) := rfl

/-- Claim C3: for every in-range layer l, row r, column c and 16-bit keycode
k, processing DynamicKeymapSetKeyCode(l, r, c, k) and then
DynamicKeymapGetKeyCode(l, r, c) yields a response carrying k big-endian in
bytes 4..6 (src/rmk/src/via/mod.rs lines 146-182; the keycode conversions are
modelled from the spec as mutually inverse). -/
theorem C3_set_get_keycode_roundtrip (ctx : ViaContext) (km : KeyMap)
    (st1 st2 : FlashChannelState) (i1 i2 : List Nat) (l r c k : Nat)
    (hl : l < ctx.layerNum) (hr : r < ctx.rowNum) (hc : c < ctx.colNum) (hk : k < 65536)
    (hlen : km.layers.length = ctx.layerNum * (ctx.rowNum * ctx.colNum)) :
    ((process_via_packet ctx
        (process_via_packet ctx km
          ⟨i1, 0x05 :: l :: r :: c :: k / 256 :: k % 256 :: List.replicate 26 0⟩ st1).keymap
        ⟨i2, 0x04 :: l :: r :: c :: List.replicate 28 0⟩ st2).report.input_data).getD 4 0
        = k / 256 ∧
      ((process_via_packet ctx
        (process_via_packet ctx km
          ⟨i1, 0x05 :: l :: r :: c :: k / 256 :: k % 256 :: List.replicate 26 0⟩ st1).keymap
        ⟨i2, 0x04 :: l :: r :: c :: List.replicate 28 0⟩ st2).report.input_data).getD 5 0
        = k % 256 := by
  have hidx : l * (ctx.rowNum * ctx.colNum) + r * ctx.colNum + c < km.layers.length := by
    rw [hlen]
    exact flat_index_lt ctx.layerNum ctx.rowNum ctx.colNum l r c hl hr hc
  rw [process_setKeyCode ctx km i1
    (0x05 :: l :: r :: c :: k / 256 :: k % 256 :: List.replicate 26 0) st1 rfl]
  dsimp only
  rw [setKeyCode_keymap]
  rw [show ((256 * (k / 256) + k % 256) % 65536) = k from by omega]
  rw [process_getKeyCode ctx _ i2 (0x04 :: l :: r :: c :: List.replicate 28 0) st2 rfl]
  dsimp only
  rw [getKeyCode_response]
  rw [getD_set_self _ _ _ _ hidx]
  dsimp only [to_via_keycode]
  constructor
  · rw [getD_writeU16BE_hi _ _ _ (by simp)]
    omega
  · rw [getD_writeU16BE_lo _ 4 5 _ rfl (by simp)]

/-- Witness for C3: a 2-layer 2 x 2 keymap, cell (1, 0, 1), keycode 0x1234. -/
theorem C3_set_get_keycode_roundtrip_witness :
    ((process_via_packet ⟨2, 2, 2, 8, 16, 8, 0, 9, 1⟩
        (process_via_packet ⟨2, 2, 2, 8, 16, 8, 0, 9, 1⟩
          ⟨List.replicate 8 (KeyAction.encoded 0), List.replicate 16 0⟩
          ⟨List.replicate 32 0,
            0x05 :: 1 :: 0 :: 1 :: 0x1234 / 256 :: 0x1234 % 256 :: List.replicate 26 0⟩
          ⟨[], []⟩).keymap
        ⟨List.replicate 32 0, 0x04 :: 1 :: 0 :: 1 :: List.replicate 28 0⟩
        ⟨[], []⟩).report.input_data).getD 4 0 = 0x1234 / 256 ∧
      ((process_via_packet ⟨2, 2, 2, 8, 16, 8, 0, 9, 1⟩
        (process_via_packet ⟨2, 2, 2, 8, 16, 8, 0, 9, 1⟩
          ⟨List.replicate 8 (KeyAction.encoded 0), List.replicate 16 0⟩
          ⟨List.replicate 32 0,
            0x05 :: 1 :: 0 :: 1 :: 0x1234 / 256 :: 0x1234 % 256 :: List.replicate 26 0⟩
          ⟨[], []⟩).keymap
        ⟨List.replicate 32 0, 0x04 :: 1 :: 0 :: 1 :: List.replicate 28 0⟩
        ⟨[], []⟩).report.input_data).getD 5 0 = 0x1234 % 256 :=
  C3_set_get_keycode_roundtrip ⟨2, 2, 2, 8, 16, 8, 0, 9, 1⟩
    ⟨List.replicate 8 (KeyAction.encoded 0), List.replicate 16 0⟩ ⟨[], []⟩ ⟨[], []⟩
    (List.replicate 32 0) (List.replicate 32 0) 1 0 1 0x1234
    (by decide) (by decide) (by decide) (by decide) (by decide)

/-! ## Lemmas about the DynamicKeymapSetBuffer fold -/

theorem setBufferFold_fst_length (ctx : ViaContext) (out : List Nat) (offset n : Nat)
    (xs : List KeyAction) (st : FlashChannelState) :
    ((List.range n).foldl (setBufferStep ctx out offset) (xs, st)).1.length = xs.length := by
  induction n with
  | zero => rfl
  | succ m ih =>
      rw [List.range_succ, List.foldl_append, List.foldl_cons, List.foldl_nil]
      simp only [setBufferStep, List.length_set]
      exact ih

theorem setBufferFold_fst_getD (ctx : ViaContext) (out : List Nat) (offset n : Nat)
    (xs : List KeyAction) (st : FlashChannelState) (j : Nat) :
    j < n → offset + n ≤ xs.length →
    ((List.range n).foldl (setBufferStep ctx out offset) (xs, st)).1.getD (offset + j) default
      = from_via_keycode (readU16LE out (4 + 2 * j)) := by
  induction n with
  | zero => intro hj _; omega
  | succ m ih =>
      intro hj hb
      rw [List.range_succ, List.foldl_append, List.foldl_cons, List.foldl_nil]
      by_cases hjm : j = m
      · subst hjm
        simp only [setBufferStep]
        apply getD_set_self
        rw [setBufferFold_fst_length]
        omega
      · simp only [setBufferStep]
        rw [getD_set_ne _ _ _ (by omega)]
        exact ih (by omega) (by omega)

theorem setBufferFold_queue_full (ctx : ViaContext) (out : List Nat) (offset n : Nat)
    (xs : List KeyAction) (st : FlashChannelState) :
    ctx.flashCap ≤ st.queue.length →
    ((List.range n).foldl (setBufferStep ctx out offset) (xs, st)).2.queue = st.queue ∧
      ((List.range n).foldl (setBufferStep ctx out offset) (xs, st)).2.dropped.length
        = st.dropped.length + n := by
  induction n with
  | zero => intro _; exact ⟨rfl, rfl⟩
  | succ m ih =>
      intro h
      obtain ⟨hq, hd⟩ := ih h
      rw [List.range_succ, List.foldl_append, List.foldl_cons, List.foldl_nil]
      simp only [setBufferStep, flashTrySend]
      rw [hq]
      rw [if_neg (by omega)]
      refine ⟨rfl, ?_⟩
      simp only [List.length_append, List.length_cons, List.length_nil]
      omega

/-- Computation rule: the flash message sent by the DynamicKeymapSetKeyCode
arm, with the big-endian keycode decoding spelled out. -/
theorem setKeyCode_flash_queue (ctx : ViaContext) (km : KeyMap) (out : List Nat)
    (st : FlashChannelState) :
    (dynamicKeymapSetKeyCode ctx km out st).2.queue
      = st.queue ++ [FlashOperationMessage.KeymapKey (out.getD 1 0) (out.getD 3 0)
          (out.getD 2 0) (from_via_keycode (256 * out.getD 4 0 + out.getD 5 0))] := rfl

/-- Claim C5: the processor reads multi-byte header integers big-endian (the
DynamicKeymapSetKeyCode keycode in bytes 4..6, the DynamicKeymapSetBuffer
offset in bytes 1..3), while the 16-bit keycodes of the
DynamicKeymapSetBuffer payload are read little-endian: the j-th written cell
gets the keycode low byte at request index 4 + 2j and high byte at
4 + 2j + 1. The hypotheses restrict the SetBuffer request to sizes whose
payload reads stay inside the 32-byte packet (4 + 2 * size bytes consumed),
as the source slice indexing panics otherwise. -/
theorem C5_header_big_endian_payload_little_endian
    (ctx : ViaContext) (km : KeyMap) (st1 st2 : FlashChannelState)
    (i1 i2 out1 out2 : List Nat) (j : Nat)
    (hcmd1 : out1.getD 0 0 = 0x05)
    (hcmd2 : out2.getD 0 0 = 0x13)
    (hout2 : out2.length = 32)
    (hsize2 : 4 + 2 * out2.getD 3 0 ≤ 32)
    (hj : j < min (out2.getD 3 0)
      (km.layers.length - (256 * out2.getD 1 0 + out2.getD 2 0))) :
    (process_via_packet ctx km ⟨i1, out1⟩ st1).flash.queue
        = st1.queue ++ [FlashOperationMessage.KeymapKey (out1.getD 1 0) (out1.getD 3 0)
            (out1.getD 2 0) (from_via_keycode (256 * out1.getD 4 0 + out1.getD 5 0))] ∧
      ((process_via_packet ctx km ⟨i2, out2⟩ st2).keymap.layers).getD
          (256 * out2.getD 1 0 + out2.getD 2 0 + j) default
        = from_via_keycode (out2.getD (4 + 2 * j) 0 + 256 * out2.getD (4 + 2 * j + 1) 0) := by
  have ho : readU16BE out2 1 = 256 * out2.getD 1 0 + out2.getD 2 0 := rfl
  constructor
  · rw [process_setKeyCode ctx km i1 out1 st1 (by rw [hcmd1]; rfl)]
    exact setKeyCode_flash_queue ctx km out1 st1
  · rw [← ho] at hj ⊢
    rw [process_setBuffer ctx km i2 out2 st2 (by rw [hcmd2]; rfl)]
    dsimp only
    unfold dynamicKeymapSetBuffer
    dsimp only
    exact setBufferFold_fst_getD ctx out2 (readU16BE out2 1) _ km.layers st2 j hj (by omega)

/-- Witness for C5: a 1-layer 2 x 2 keymap; SetKeyCode stores keycode 0x1234
from big-endian bytes, SetBuffer at offset 1 stores the keycode of the
little-endian payload bytes (9, 0). -/
theorem C5_header_big_endian_payload_little_endian_witness :
    (process_via_packet ⟨2, 2, 1, 8, 16, 8, 0, 9, 1⟩
        ⟨List.replicate 4 (KeyAction.encoded 0), List.replicate 16 0⟩
        ⟨List.replicate 32 0, 0x05 :: 0 :: 1 :: 1 :: 0x12 :: 0x34 :: List.replicate 26 0⟩
        ⟨[], []⟩).flash.queue
      = FlashChannelState.queue ⟨[], []⟩ ++
          [FlashOperationMessage.KeymapKey
            ((0x05 :: 0 :: 1 :: 1 :: 0x12 :: 0x34 :: List.replicate 26 0).getD 1 0)
            ((0x05 :: 0 :: 1 :: 1 :: 0x12 :: 0x34 :: List.replicate 26 0).getD 3 0)
            ((0x05 :: 0 :: 1 :: 1 :: 0x12 :: 0x34 :: List.replicate 26 0).getD 2 0)
            (from_via_keycode
              (256 * (0x05 :: 0 :: 1 :: 1 :: 0x12 :: 0x34 :: List.replicate 26 0).getD 4 0 +
                (0x05 :: 0 :: 1 :: 1 :: 0x12 :: 0x34 :: List.replicate 26 0).getD 5 0))] ∧
      ((process_via_packet ⟨2, 2, 1, 8, 16, 8, 0, 9, 1⟩
          ⟨List.replicate 4 (KeyAction.encoded 0), List.replicate 16 0⟩
          ⟨List.replicate 32 0, [0x13, 0, 1, 2, 9, 0, 7, 0] ++ List.replicate 24 0⟩
          ⟨[], []⟩).keymap.layers).getD
          (256 * ([0x13, 0, 1, 2, 9, 0, 7, 0] ++ List.replicate 24 0).getD 1 0 +
            ([0x13, 0, 1, 2, 9, 0, 7, 0] ++ List.replicate 24 0).getD 2 0 + 0) default
        = from_via_keycode
            (([0x13, 0, 1, 2, 9, 0, 7, 0] ++ List.replicate 24 0).getD (4 + 2 * 0) 0 +
              256 * ([0x13, 0, 1, 2, 9, 0, 7, 0] ++ List.replicate 24 0).getD (4 + 2 * 0 + 1) 0) :=
  C5_header_big_endian_payload_little_endian ⟨2, 2, 1, 8, 16, 8, 0, 9, 1⟩
    ⟨List.replicate 4 (KeyAction.encoded 0), List.replicate 16 0⟩ ⟨[], []⟩ ⟨[], []⟩
    (List.replicate 32 0) (List.replicate 32 0)
    (0x05 :: 0 :: 1 :: 1 :: 0x12 :: 0x34 :: List.replicate 26 0)
    ([0x13, 0, 1, 2, 9, 0, 7, 0] ++ List.replicate 24 0) 0
    (by decide) (by decide) (by decide) (by decide) (by decide)

/-- Claim C10: for a DynamicKeymapSetBuffer request arriving while the flash
channel is full, every targeted in-RAM cell is still updated, yet nothing is
enqueued (the queue is unchanged, so the writes are never delivered or
retried) and every per-cell KeymapKey message lands in the dropped list;
by contrast a DynamicKeymapSetKeyCode request delivers its KeymapKey storage
write with the blocking send whatever the channel state. The hypotheses
restrict the SetBuffer request to sizes whose payload reads stay inside the
32-byte packet (4 + 2 * size bytes consumed), as the source slice indexing
panics otherwise. -/
theorem C10_set_buffer_ram_despite_full_channel
    (ctx : ViaContext) (km : KeyMap) (st1 st2 : FlashChannelState)
    (i1 i2 out1 out2 : List Nat) (j : Nat)
    (hcmd1 : out1.getD 0 0 = 0x13)
    (hout1 : out1.length = 32)
    (hsize1 : 4 + 2 * out1.getD 3 0 ≤ 32)
    (hfull : ctx.flashCap ≤ st1.queue.length)
    (hj : j < min (out1.getD 3 0) (km.layers.length - readU16BE out1 1))
    (hcmd2 : out2.getD 0 0 = 0x05)
    (hout2 : out2.length = 32) :
    ((process_via_packet ctx km ⟨i1, out1⟩ st1).keymap.layers).getD
        (readU16BE out1 1 + j) default
      = from_via_keycode (readU16LE out1 (4 + 2 * j)) ∧
    (process_via_packet ctx km ⟨i1, out1⟩ st1).flash.queue = st1.queue ∧
    (process_via_packet ctx km ⟨i1, out1⟩ st1).flash.dropped.length
      = st1.dropped.length + min (out1.getD 3 0) (km.layers.length - readU16BE out1 1) ∧
    (process_via_packet ctx km ⟨i2, out2⟩ st2).flash.queue
      = st2.queue ++ [FlashOperationMessage.KeymapKey (out2.getD 1 0) (out2.getD 3 0)
          (out2.getD 2 0) (from_via_keycode (256 * out2.getD 4 0 + out2.getD 5 0))] := by
  rw [process_setBuffer ctx km i1 out1 st1 (by rw [hcmd1]; rfl)]
  dsimp only
  unfold dynamicKeymapSetBuffer
  dsimp only
  refine ⟨?_, ?_, ?_, ?_⟩
  · exact setBufferFold_fst_getD ctx out1 (readU16BE out1 1) _ km.layers st1 j hj (by omega)
  · exact (setBufferFold_queue_full ctx out1 (readU16BE out1 1) _ km.layers st1 hfull).1
  · exact (setBufferFold_queue_full ctx out1 (readU16BE out1 1) _ km.layers st1 hfull).2
  · rw [process_setKeyCode ctx km i2 out2 st2 (by rw [hcmd2]; rfl)]
    exact setKeyCode_flash_queue ctx km out2 st2

/-- Witness for C10: the flash channel already holds 8 messages (its
capacity), a SetBuffer at offset 1 of size 2 still updates cell 1 in RAM. -/
theorem C10_set_buffer_ram_despite_full_channel_witness :
    ((process_via_packet ⟨2, 2, 1, 8, 16, 8, 0, 9, 1⟩
        ⟨List.replicate 4 (KeyAction.encoded 0), List.replicate 16 0⟩
        ⟨List.replicate 32 0, [0x13, 0, 1, 2, 9, 0, 7, 0] ++ List.replicate 24 0⟩
        ⟨List.replicate 8 FlashOperationMessage.Reset, []⟩).keymap.layers).getD
        (readU16BE ([0x13, 0, 1, 2, 9, 0, 7, 0] ++ List.replicate 24 0) 1 + 0) default
      = from_via_keycode
          (readU16LE ([0x13, 0, 1, 2, 9, 0, 7, 0] ++ List.replicate 24 0) (4 + 2 * 0)) ∧
    (process_via_packet ⟨2, 2, 1, 8, 16, 8, 0, 9, 1⟩
        ⟨List.replicate 4 (KeyAction.encoded 0), List.replicate 16 0⟩
        ⟨List.replicate 32 0, [0x13, 0, 1, 2, 9, 0, 7, 0] ++ List.replicate 24 0⟩
        ⟨List.replicate 8 FlashOperationMessage.Reset, []⟩).flash.queue
      = FlashChannelState.queue ⟨List.replicate 8 FlashOperationMessage.Reset, []⟩ ∧
    (process_via_packet ⟨2, 2, 1, 8, 16, 8, 0, 9, 1⟩
        ⟨List.replicate 4 (KeyAction.encoded 0), List.replicate 16 0⟩
        ⟨List.replicate 32 0, [0x13, 0, 1, 2, 9, 0, 7, 0] ++ List.replicate 24 0⟩
        ⟨List.replicate 8 FlashOperationMessage.Reset, []⟩).flash.dropped.length
      = (FlashChannelState.mk (List.replicate 8 FlashOperationMessage.Reset) []).dropped.length +
          min (([0x13, 0, 1, 2, 9, 0, 7, 0] ++ List.replicate 24 0).getD 3 0)
            ((List.replicate 4 (KeyAction.encoded 0)).length -
              readU16BE ([0x13, 0, 1, 2, 9, 0, 7, 0] ++ List.replicate 24 0) 1) ∧
    (process_via_packet ⟨2, 2, 1, 8, 16, 8, 0, 9, 1⟩
        ⟨List.replicate 4 (KeyAction.encoded 0), List.replicate 16 0⟩
        ⟨List.replicate 32 0, 0x05 :: 0 :: 1 :: 1 :: 0x12 :: 0x34 :: List.replicate 26 0⟩
        ⟨[], []⟩).flash.queue
      = FlashChannelState.queue ⟨[], []⟩ ++
          [FlashOperationMessage.KeymapKey
            ((0x05 :: 0 :: 1 :: 1 :: 0x12 :: 0x34 :: List.replicate 26 0).getD 1 0)
            ((0x05 :: 0 :: 1 :: 1 :: 0x12 :: 0x34 :: List.replicate 26 0).getD 3 0)
            ((0x05 :: 0 :: 1 :: 1 :: 0x12 :: 0x34 :: List.replicate 26 0).getD 2 0)
            (from_via_keycode
              (256 * (0x05 :: 0 :: 1 :: 1 :: 0x12 :: 0x34 :: List.replicate 26 0).getD 4 0 +
                (0x05 :: 0 :: 1 :: 1 :: 0x12 :: 0x34 :: List.replicate 26 0).getD 5 0))] :=
  C10_set_buffer_ram_despite_full_channel ⟨2, 2, 1, 8, 16, 8, 0, 9, 1⟩
    ⟨List.replicate 4 (KeyAction.encoded 0), List.replicate 16 0⟩
    ⟨List.replicate 8 FlashOperationMessage.Reset, []⟩ ⟨[], []⟩
    (List.replicate 32 0) (List.replicate 32 0)
    ([0x13, 0, 1, 2, 9, 0, 7, 0] ++ List.replicate 24 0)
    (0x05 :: 0 :: 1 :: 1 :: 0x12 :: 0x34 :: List.replicate 26 0) 0
    (by decide) (by decide) (by decide) (by decide) (by decide) (by decide) (by decide)

/-- Claim C6: a DynamicKeymapMacroSetBuffer request flushes the entire
updated macro cache to storage with a WriteMacro message exactly when
size < 28 or the number of zero bytes in macro_cache[0 .. offset + size] has
reached NUM_MACRO (src/rmk/src/via/mod.rs lines 229-259); the hypotheses
restrict to requests on which the source slice copies are in bounds. -/
theorem C6_macro_flush_condition (ctx : ViaContext) (km : KeyMap) (i0 out : List Nat)
    (st : FlashChannelState)
    (hcmd : out.getD 0 0 = 0x0F)
    (hout : out.length = 32)
    (hsize : out.getD 3 0 ≤ 28)
    (hbound : readU16BE out 1 + out.getD 3 0 ≤ ctx.macroSpaceSize)
    (hcache : km.macro_cache.length = ctx.macroSpaceSize) :
    (process_via_packet ctx km ⟨i0, out⟩ st).keymap.macro_cache
        = macroSetBufferCache ctx.macroSpaceSize km.macro_cache out ∧
      (process_via_packet ctx km ⟨i0, out⟩ st).flash.queue
        = st.queue ++
            (if out.getD 3 0 < 28 ∨ ctx.numMacro ≤ count_zeros
                ((macroSetBufferCache ctx.macroSpaceSize km.macro_cache out).take
                  (readU16BE out 1 + out.getD 3 0))
              then [FlashOperationMessage.WriteMacro
                (macroSetBufferCache ctx.macroSpaceSize km.macro_cache out)]
              else []) := by
  rw [process_macroSetBuffer ctx km i0 out st (by rw [hcmd]; rfl)]
  dsimp only
  unfold dynamicKeymapMacroSetBuffer
  dsimp only
  by_cases hcond : out.getD 3 0 < 28 ∨ ctx.numMacro ≤ count_zeros
      ((macroSetBufferCache ctx.macroSpaceSize km.macro_cache out).take
        (readU16BE out 1 + out.getD 3 0))
  · rw [if_pos hcond, if_pos hcond]
    exact ⟨rfl, rfl⟩
  · rw [if_neg hcond, if_neg hcond]
    exact ⟨rfl, by simp⟩

/-- Witness for C6: offset 0, size 3 < 28, so the flush fires. -/
theorem C6_macro_flush_condition_witness :
    (process_via_packet ⟨2, 2, 1, 2, 16, 8, 0, 9, 1⟩
        ⟨List.replicate 4 (KeyAction.encoded 0), List.replicate 16 0⟩
        ⟨List.replicate 32 0, [0x0F, 0, 0, 3, 1, 0, 2] ++ List.replicate 25 0⟩
        ⟨[], []⟩).keymap.macro_cache
        = macroSetBufferCache 16 (List.replicate 16 0)
            ([0x0F, 0, 0, 3, 1, 0, 2] ++ List.replicate 25 0) ∧
      (process_via_packet ⟨2, 2, 1, 2, 16, 8, 0, 9, 1⟩
        ⟨List.replicate 4 (KeyAction.encoded 0), List.replicate 16 0⟩
        ⟨List.replicate 32 0, [0x0F, 0, 0, 3, 1, 0, 2] ++ List.replicate 25 0⟩
        ⟨[], []⟩).flash.queue
        = FlashChannelState.queue ⟨[], []⟩ ++
            (if ([0x0F, 0, 0, 3, 1, 0, 2] ++ List.replicate 25 0).getD 3 0 < 28 ∨
                (2 : Nat) ≤ count_zeros
                  ((macroSetBufferCache 16 (List.replicate 16 0)
                    ([0x0F, 0, 0, 3, 1, 0, 2] ++ List.replicate 25 0)).take
                    (readU16BE ([0x0F, 0, 0, 3, 1, 0, 2] ++ List.replicate 25 0) 1 +
                      ([0x0F, 0, 0, 3, 1, 0, 2] ++ List.replicate 25 0).getD 3 0))
              then [FlashOperationMessage.WriteMacro
                (macroSetBufferCache 16 (List.replicate 16 0)
                  ([0x0F, 0, 0, 3, 1, 0, 2] ++ List.replicate 25 0))]
              else []) :=
  C6_macro_flush_condition ⟨2, 2, 1, 2, 16, 8, 0, 9, 1⟩
    ⟨List.replicate 4 (KeyAction.encoded 0), List.replicate 16 0⟩
    (List.replicate 32 0) ([0x0F, 0, 0, 3, 1, 0, 2] ++ List.replicate 25 0) ⟨[], []⟩
    (by decide) (by decide) (by decide) (by decide) (by decide)

/-! ## BLE connection gate (src/rmk/src/ble/nrf/mod.rs) -/

/-- Modelled from the spec: a bond record of the Bonder
(src/rmk/src/ble/nrf/bonder.rs is not among the provided sources); only the
stored peer address matters to the connection check. -/
structure BondInfo where
  peerAddress : Nat
deriving DecidableEq

/-- Modelled from the spec: MultiBonder::check_connection
(src/rmk/src/ble/nrf/bonder.rs is not among the provided sources): true iff
the address of the connecting peer matches the bond stored at the active
profile index. -/
def check_connection (bonds : Nat → Option BondInfo) (activeProfile peerAddress : Nat) :
    Bool :=
  match bonds activeProfile with
  | some b => b.peerAddress == peerAddress
  | none => false

/-- The connection-scoped actions of run_ble_keyboard, in source order. -/
inductive BleSessionAction where
  | logMismatchError
  | loadSysAttrs
  | phyUpdate
  | runServices
  | saveSysAttrs
deriving DecidableEq

/-- run_ble_keyboard (src/rmk/src/ble/nrf/mod.rs lines 452-514) as the
sequence of actions it performs on the new connection: when the bond check
fails it logs the mismatch and returns at once, dropping the connection;
otherwise it loads the system attributes, requests a PHY update, runs the
keyboard, HID, VIA, battery and profile services inside select4 until one
finishes (runServices, the only action that emits reports on the
connection), and finally saves the system attributes. -/
def run_ble_keyboard (checkOk : Bool) : List BleSessionAction :=
  if !checkOk then [BleSessionAction.logMismatchError]
  else
    [BleSessionAction.loadSysAttrs, BleSessionAction.phyUpdate,
      BleSessionAction.runServices, BleSessionAction.saveSysAttrs]

/-- Claim C8: when the connecting peer address does not match the bond stored
at the active profile index, check_connection is false and run_ble_keyboard
only logs the mismatch and returns: the services that emit reports never run
on that connection. -/
theorem C8_mismatched_connection_never_serviced (bonds : Nat → Option BondInfo)
    (activeProfile peerAddress : Nat)
    (hmismatch : ∀ b, bonds activeProfile = some b → b.peerAddress ≠ peerAddress) :
    run_ble_keyboard (check_connection bonds activeProfile peerAddress)
        = [BleSessionAction.logMismatchError] ∧
      BleSessionAction.runServices ∉
        run_ble_keyboard (check_connection bonds activeProfile peerAddress) := by
  have hc : check_connection bonds activeProfile peerAddress = false := by
    unfold check_connection
    cases hb : bonds activeProfile with
    | none => rfl
    | some b => simpa using hmismatch b hb
  rw [hc]
  exact ⟨rfl, by decide⟩

/-- Witness for C8: the active profile 0 stores a bond with address 1, while
the peer connects with address 2. -/
theorem C8_mismatched_connection_never_serviced_witness :
    run_ble_keyboard (check_connection (fun _ => some ⟨1⟩) 0 2)
        = [BleSessionAction.logMismatchError] ∧
      BleSessionAction.runServices ∉ run_ble_keyboard (check_connection (fun _ => some ⟨1⟩) 0 2) :=
  C8_mismatched_connection_never_serviced (fun _ => some ⟨1⟩) 0 2
    (by intro b hb; cases hb; decide)

end RMK
